import Mathlib

/-!
Verification of seacat-auth core services against their specification.

The definitions below are shallow embeddings of the Python sources under
`seacatauth/`: time is modelled as `Int` seconds, byte strings as `List Nat`,
fallible code as `Except`/`Option`.  Definitions named after source symbols
mirror the corresponding Python function line by line; definitions whose doc
comment starts with "Modelled from the spec:" stand for repository code that
is not part of the analysed sources (config-default registration, the
`access_control` decorator, `RoleService.set_roles`) and follow the
specification text instead.
-/

namespace Seacatauth

/-! ## Session store: `SessionService.touch` (session/service.py) -/

/-- `SessionService.MinimalRefreshInterval = datetime.timedelta(seconds=60)`. -/
def minimalRefreshInterval : Int := 60

/-- The fields of a stored session that `SessionService.touch` reads and
writes: expiration, max-expiration, modification timestamp, the per-session
touch extension (`none` models a legacy session without the field), and the
version counter. -/
structure Session where
  expiration : Int
  maxExpiration : Int
  modifiedAt : Int
  touchExtension : Option Int
  version : Nat
  deriving Repr, DecidableEq

/-- The extension that `touch` uses: the explicit `expiration` argument when
given, else `session.TouchExtension` (mirrors the `if expiration is not None
... elif session.TouchExtension is not None ... else return` chain). -/
def touchExtensionOf (expirationArg : Option Int) (s : Session) : Option Int :=
  match expirationArg with
  | some e => some e
  | none => s.touchExtension

/-- `SessionService.touch(session, expiration=None)` evaluated at time `now`:
returns the stored session after the call.  Mirrors session/service.py lines
247-288: no-op when `now < modified + MinimalRefreshInterval`, when
`expiration == max_expiration`, when there is no extension to apply, or when
the candidate `expires` would shrink the session; otherwise the candidate is
clamped to `max_expiration` and written. -/
def touch (now : Int) (expirationArg : Option Int) (s : Session) : Session :=
  if now < s.modifiedAt + minimalRefreshInterval then s
  else if s.expiration = s.maxExpiration then s
  else
    match touchExtensionOf expirationArg s with
    | none => s
    | some ext =>
      let expires := now + ext
      if expires < s.expiration then s
      else
        let expires2 := if s.maxExpiration < expires then s.maxExpiration else expires
        { s with expiration := expires2, modifiedAt := now, version := s.version + 1 }

/-- A session created with `expiration` exceeding `maximum_age`: create only
logs a warning (service.py line 130-132), so `expiration > max_expiration`
is reachable.  Used to refute the unconditional touch-monotonicity claim. -/
def oversizedSession : Session :=
  { expiration := 10000, maxExpiration := 3600, modifiedAt := 0,
    touchExtension := some 5000, version := 1 }

theorem touch_of_recent {s : Session} {now : Int} {a : Option Int}
    (h : now < s.modifiedAt + minimalRefreshInterval) : touch now a s = s := by
  unfold touch
  rw [if_pos h]

theorem touch_of_maxed {s : Session} {now : Int} {a : Option Int}
    (h : s.expiration = s.maxExpiration) : touch now a s = s := by
  unfold touch
  by_cases h1 : now < s.modifiedAt + minimalRefreshInterval
  · rw [if_pos h1]
  · rw [if_neg h1, if_pos h]

theorem touch_of_shrink {s : Session} {now ext : Int} {a : Option Int}
    (hext : touchExtensionOf a s = some ext) (h : now + ext < s.expiration) :
    touch now a s = s := by
  unfold touch
  by_cases h1 : now < s.modifiedAt + minimalRefreshInterval
  · rw [if_pos h1]
  · rw [if_neg h1]
    by_cases h2 : s.expiration = s.maxExpiration
    · rw [if_pos h2]
    · rw [if_neg h2, hext]
      exact if_pos h

theorem touch_expiration_bounds {s : Session} (now : Int) (a : Option Int)
    (hinv : s.expiration ≤ s.maxExpiration) :
    s.expiration ≤ (touch now a s).expiration ∧
      (touch now a s).expiration ≤ s.maxExpiration := by
  unfold touch
  by_cases h1 : now < s.modifiedAt + minimalRefreshInterval
  · rw [if_pos h1]
    exact ⟨le_refl _, hinv⟩
  · rw [if_neg h1]
    by_cases h2 : s.expiration = s.maxExpiration
    · rw [if_pos h2]
      exact ⟨le_refl _, hinv⟩
    · rw [if_neg h2]
      cases hext : touchExtensionOf a s with
      | none => exact ⟨le_refl _, hinv⟩
      | some ext =>
        by_cases h3 : now + ext < s.expiration
        · dsimp only
          rw [if_pos h3]
          exact ⟨le_refl _, hinv⟩
        · dsimp only
          rw [if_neg h3]
          refine ⟨?_, ?_⟩ <;> dsimp only <;> split <;> omega

theorem touch_clamp {s : Session} {now ext : Int} {a : Option Int}
    (hinv : s.expiration ≤ s.maxExpiration)
    (hext : touchExtensionOf a s = some ext)
    (h1 : ¬ now < s.modifiedAt + minimalRefreshInterval)
    (h2 : ¬ s.expiration = s.maxExpiration)
    (h4 : s.maxExpiration < now + ext) :
    (touch now a s).expiration = s.maxExpiration := by
  unfold touch
  rw [if_neg h1, if_neg h2, hext]
  dsimp only
  rw [if_neg (by omega : ¬ now + ext < s.expiration)]
  dsimp only
  rw [if_pos h4]

end Seacatauth

/-- C1 (counterexample): the claim "for every session and every touch call the
stored expiration after the call is greater than or equal to the expiration
before it" fails on a session created with `expiration` above `maximum_age`
(create_session only warns): touching it at time 6000 clamps the expiration
from 10000 down to `max_expiration = 3600`. -/
theorem touch_monotone_counterexample :
    ¬ (Seacatauth.oversizedSession.expiration ≤
        (Seacatauth.touch 6000 none Seacatauth.oversizedSession).expiration) := by
  decide

/-- C1 (amended): for every session whose stored expiration does not exceed its
max-expiration, and every touch call, the stored expiration after the call is
greater than or equal to the expiration before it and never exceeds
`max_expiration`; moreover touch is a no-op when `now < modified +
minimum_refresh_interval`, when the expiration already equals
`max_expiration`, or when the candidate `now + (explicit expiration, else
touch_extension)` is earlier than the current expiration, and the written
expiration equals `max_expiration` whenever the candidate exceeds it. -/
theorem touch_monotone_bounded (s : Seacatauth.Session) (now : Int)
    (expirationArg : Option Int) (hinv : s.expiration ≤ s.maxExpiration) :
    s.expiration ≤ (Seacatauth.touch now expirationArg s).expiration ∧
    (Seacatauth.touch now expirationArg s).expiration ≤ s.maxExpiration ∧
    (now < s.modifiedAt + Seacatauth.minimalRefreshInterval →
      Seacatauth.touch now expirationArg s = s) ∧
    (s.expiration = s.maxExpiration → Seacatauth.touch now expirationArg s = s) ∧
    (∀ ext, Seacatauth.touchExtensionOf expirationArg s = some ext →
      now + ext < s.expiration → Seacatauth.touch now expirationArg s = s) ∧
    (∀ ext, Seacatauth.touchExtensionOf expirationArg s = some ext →
      ¬ now < s.modifiedAt + Seacatauth.minimalRefreshInterval →
      ¬ s.expiration = s.maxExpiration →
      s.maxExpiration < now + ext →
      (Seacatauth.touch now expirationArg s).expiration = s.maxExpiration) := by
  obtain ⟨hle, hub⟩ := Seacatauth.touch_expiration_bounds now expirationArg hinv
  refine ⟨hle, hub, ?_, ?_, ?_, ?_⟩
  · intro h
    exact Seacatauth.touch_of_recent h
  · intro h
    exact Seacatauth.touch_of_maxed h
  · intro ext hext h
    exact Seacatauth.touch_of_shrink hext h
  · intro ext hext h1 h2 h4
    exact Seacatauth.touch_clamp hinv hext h1 h2 h4

/-- C1 (witness): the amended touch theorem applied at a concrete session
(scenario 4 of the spec: expiration 600, touch extension 300, maximum age
3600, touched at t = 400). -/
theorem touch_monotone_bounded_witness :
    ({ expiration := 600, maxExpiration := 3600, modifiedAt := 0,
       touchExtension := some 300, version := 1 } : Seacatauth.Session).expiration ≤
      (Seacatauth.touch 400 none
        { expiration := 600, maxExpiration := 3600, modifiedAt := 0,
          touchExtension := some 300, version := 1 }).expiration :=
  (touch_monotone_bounded
    { expiration := 600, maxExpiration := 3600, modifiedAt := 0,
      touchExtension := some 300, version := 1 } 400 none (by decide)).1

namespace Seacatauth

/-! ## Crypto primitives: `SessionService.aes_encrypt` / `aes_decrypt`
(session/service.py lines 349-365).

Bytes are modelled as `List Nat`.  The `cryptography` library's CBC mode is
expanded to its standard definition over an abstract keyed block cipher
`E` (the AES permutation under `self.AESKey`); `D` is its inverse.  The
library raises `ValueError` when the IV is not exactly one block or when the
data to encrypt is not a whole number of blocks (CBC is used without
padding); this is modelled by returning `none`. -/

/-- `AESBlockSize = AES.block_size // 8 = 16`. -/
def aesBlockSize : Nat := 16

/-- Bytewise XOR of two byte strings (the CBC chaining step). -/
def zipXor (a b : List Nat) : List Nat := List.zipWith Nat.xor a b

/-- CBC encryption over a list of blocks: each ciphertext block is
`E (previous-ciphertext XOR plaintext-block)`, seeded with the IV. -/
def cbcEncChunks (E : List Nat → List Nat) : List Nat → List (List Nat) → List (List Nat)
  | _, [] => []
  | prev, b :: bs =>
    let c := E (zipXor prev b)
    c :: cbcEncChunks E c bs

/-- CBC decryption over a list of blocks: each plaintext block is
`previous-ciphertext XOR D (ciphertext-block)`, seeded with the IV. -/
def cbcDecChunks (D : List Nat → List Nat) : List Nat → List (List Nat) → List (List Nat)
  | _, [] => []
  | prev, b :: bs => zipXor prev (D b) :: cbcDecChunks D b bs

/-- Split a byte string into consecutive `aesBlockSize`-byte chunks; the
fuel argument (instantiated with the length) makes the recursion
structural. -/
def chunksAux : Nat → List Nat → List (List Nat)
  | _, [] => []
  | 0, _ :: _ => []
  | fuel + 1, x :: xs => (x :: xs).take aesBlockSize :: chunksAux fuel ((x :: xs).drop aesBlockSize)

/-- Split a byte string into consecutive 16-byte blocks. -/
def toChunks (data : List Nat) : List (List Nat) := chunksAux data.length data

/-- `SessionService.aes_encrypt(raw_bytes)`: split off the first
`AESBlockSize` bytes as the CBC IV, encrypt the remainder, and emit
`iv || ciphertext`.  `none` models the `ValueError` the library raises when
`raw_bytes` is shorter than one block (invalid IV size) or when the
remainder is not a multiple of the block size (no padding is applied). -/
def aes_encrypt (E : List Nat → List Nat) (raw_bytes : List Nat) : Option (List Nat) :=
  let iv := raw_bytes.take aesBlockSize
  let token := raw_bytes.drop aesBlockSize
  if iv.length = aesBlockSize ∧ token.length % aesBlockSize = 0 then
    some (iv ++ (cbcEncChunks E iv (toChunks token)).flatten)
  else none

/-- `SessionService.aes_decrypt(encrypted_bytes)`: mirrors `aes_encrypt`,
splitting off the IV and decrypting the remainder. -/
def aes_decrypt (D : List Nat → List Nat) (encrypted_bytes : List Nat) : Option (List Nat) :=
  let iv := encrypted_bytes.take aesBlockSize
  let token := encrypted_bytes.drop aesBlockSize
  if iv.length = aesBlockSize ∧ token.length % aesBlockSize = 0 then
    some (iv ++ (cbcDecChunks D iv (toChunks token)).flatten)
  else none

theorem zipXor_zipXor (a : List Nat) : ∀ b : List Nat, b.length ≤ a.length →
    zipXor a (zipXor a b) = b := by
  induction a with
  | nil =>
    intro b hb
    have : b = [] := List.length_eq_zero.mp (Nat.le_zero.mp hb)
    subst this
    rfl
  | cons x xs ih =>
    intro b hb
    cases b with
    | nil => rfl
    | cons y ys =>
      simp only [zipXor, List.zipWith] at *
      congr 1
      · exact Nat.xor_cancel_left x y
      · exact ih ys (Nat.le_of_succ_le_succ hb)

theorem zipXor_length (a b : List Nat) : (zipXor a b).length = min a.length b.length :=
  List.length_zipWith _ _ _

theorem chunksAux_spec : ∀ (fuel : Nat) (data : List Nat), data.length ≤ fuel →
    data.length % aesBlockSize = 0 →
    (chunksAux fuel data).flatten = data ∧
      ∀ c ∈ chunksAux fuel data, c.length = aesBlockSize := by
  intro fuel
  induction fuel with
  | zero =>
    intro data hf _
    have : data = [] := List.length_eq_zero.mp (Nat.le_zero.mp hf)
    subst this
    exact ⟨rfl, by intro c hc; simp [chunksAux] at hc⟩
  | succ fuel ih =>
    intro data hf hm
    cases data with
    | nil => exact ⟨rfl, by intro c hc; simp [chunksAux] at hc⟩
    | cons x xs =>
      have hlen : aesBlockSize ≤ (x :: xs).length := by
        have hne : (x :: xs).length ≠ 0 := by simp
        unfold aesBlockSize at *
        omega
      have hdroplen : ((x :: xs).drop aesBlockSize).length = (x :: xs).length - aesBlockSize :=
        List.length_drop _ _
      have ihd := ih ((x :: xs).drop aesBlockSize)
        (by rw [hdroplen]; simp only [aesBlockSize] at *; omega)
        (by rw [hdroplen]; simp only [aesBlockSize] at *; omega)
      constructor
      · show ((x :: xs).take aesBlockSize :: chunksAux fuel ((x :: xs).drop aesBlockSize)).flatten
          = x :: xs
        rw [List.flatten_cons, ihd.1, List.take_append_drop]
      · intro c hc
        rw [show chunksAux (fuel + 1) (x :: xs)
            = (x :: xs).take aesBlockSize :: chunksAux fuel ((x :: xs).drop aesBlockSize) from rfl]
          at hc
        cases hc with
        | head => rw [List.length_take]; omega
        | tail _ h => exact ihd.2 c h

theorem toChunks_flatten {data : List Nat} (h : data.length % aesBlockSize = 0) :
    (toChunks data).flatten = data :=
  (chunksAux_spec data.length data (le_refl _) h).1

theorem toChunks_blocks {data : List Nat} (h : data.length % aesBlockSize = 0) :
    ∀ c ∈ toChunks data, c.length = aesBlockSize :=
  (chunksAux_spec data.length data (le_refl _) h).2

theorem chunksAux_flatten_of_blocks :
    ∀ (cs : List (List Nat)) (fuel : Nat), (∀ c ∈ cs, c.length = aesBlockSize) →
      cs.flatten.length ≤ fuel → chunksAux fuel cs.flatten = cs := by
  intro cs
  induction cs with
  | nil =>
    intro fuel _ _
    show chunksAux fuel [] = []
    cases fuel <;> rfl
  | cons c cs ih =>
    intro fuel hall hf
    have hc : c.length = aesBlockSize := hall c (List.mem_cons_self _ _)
    have hflat : (c :: cs).flatten = c ++ cs.flatten := List.flatten_cons
    cases fuel with
    | zero =>
      exfalso
      rw [hflat, List.length_append, hc] at hf
      simp only [aesBlockSize] at hf
      omega
    | succ fuel =>
      rw [hflat]
      cases hcc : c with
      | nil => rw [hcc] at hc; simp [aesBlockSize] at hc
      | cons y ys =>
        rw [← hcc]
        have hne : c ++ cs.flatten = y :: (ys ++ cs.flatten) := by rw [hcc]; rfl
        rw [hne]
        rw [show chunksAux (fuel + 1) (y :: (ys ++ cs.flatten))
            = (y :: (ys ++ cs.flatten)).take aesBlockSize
              :: chunksAux fuel ((y :: (ys ++ cs.flatten)).drop aesBlockSize) from rfl]
        rw [← hne, List.take_left' hc, List.drop_left' hc]
        have hlen : cs.flatten.length ≤ fuel := by
          rw [hflat] at hf
          rw [List.length_append, hc] at hf
          unfold aesBlockSize at hf
          omega
        rw [ih fuel (fun d hd => hall d (List.mem_cons_of_mem _ hd)) hlen]

theorem toChunks_flatten_of_blocks (cs : List (List Nat))
    (h : ∀ c ∈ cs, c.length = aesBlockSize) : toChunks cs.flatten = cs :=
  chunksAux_flatten_of_blocks cs cs.flatten.length h (le_refl _)

theorem flatten_length_of_blocks :
    ∀ cs : List (List Nat), (∀ c ∈ cs, c.length = aesBlockSize) →
      cs.flatten.length = aesBlockSize * cs.length := by
  intro cs
  induction cs with
  | nil => intro _; rfl
  | cons c cs ih =>
    intro hall
    rw [List.flatten_cons, List.length_append, hall c (List.mem_cons_self _ _),
      ih (fun d hd => hall d (List.mem_cons_of_mem _ hd))]
    simp [List.length_cons]
    ring

theorem cbcEncChunks_blocks {E : List Nat → List Nat}
    (hE : ∀ b, b.length = aesBlockSize → (E b).length = aesBlockSize) :
    ∀ (bs : List (List Nat)) (prev : List Nat), prev.length = aesBlockSize →
      (∀ b ∈ bs, b.length = aesBlockSize) →
      ∀ c ∈ cbcEncChunks E prev bs, c.length = aesBlockSize := by
  intro bs
  induction bs with
  | nil =>
    intro prev _ _ c hc
    simp [cbcEncChunks] at hc
  | cons b bs ih =>
    intro prev hprev hall c hc
    have hxlen : (zipXor prev b).length = aesBlockSize := by
      rw [zipXor_length, hprev, hall b (List.mem_cons_self _ _)]
      simp
    have hclen : (E (zipXor prev b)).length = aesBlockSize := hE _ hxlen
    rw [show cbcEncChunks E prev (b :: bs)
        = E (zipXor prev b) :: cbcEncChunks E (E (zipXor prev b)) bs from rfl] at hc
    cases hc with
    | head => exact hclen
    | tail _ h =>
      exact ih (E (zipXor prev b)) hclen (fun d hd => hall d (List.mem_cons_of_mem _ hd)) c h

theorem cbcDecChunks_cbcEncChunks {E D : List Nat → List Nat}
    (hE : ∀ b, b.length = aesBlockSize → (E b).length = aesBlockSize)
    (hD : ∀ b, b.length = aesBlockSize → D (E b) = b) :
    ∀ (bs : List (List Nat)) (prev : List Nat), prev.length = aesBlockSize →
      (∀ b ∈ bs, b.length = aesBlockSize) →
      cbcDecChunks D prev (cbcEncChunks E prev bs) = bs := by
  intro bs
  induction bs with
  | nil =>
    intro prev _ _
    rfl
  | cons b bs ih =>
    intro prev hprev hall
    have hb : b.length = aesBlockSize := hall b (List.mem_cons_self _ _)
    have hxlen : (zipXor prev b).length = aesBlockSize := by
      rw [zipXor_length, hprev, hb]
      simp
    rw [show cbcEncChunks E prev (b :: bs)
        = E (zipXor prev b) :: cbcEncChunks E (E (zipXor prev b)) bs from rfl]
    rw [show cbcDecChunks D prev
          (E (zipXor prev b) :: cbcEncChunks E (E (zipXor prev b)) bs)
        = zipXor prev (D (E (zipXor prev b)))
          :: cbcDecChunks D (E (zipXor prev b)) (cbcEncChunks E (E (zipXor prev b)) bs)
        from rfl]
    rw [hD _ hxlen, zipXor_zipXor prev b (by rw [hprev, hb])]
    rw [ih (E (zipXor prev b)) (hE _ hxlen) (fun d hd => hall d (List.mem_cons_of_mem _ hd))]

end Seacatauth

/-- C2 (counterexample): the claim that `aes_decrypt(aes_encrypt(v)) = v` for
every byte-string `v` fails when the length of `v` is not a positive multiple
of the 16-byte block size: the library CBC mode has no padding, so for a
24-byte value encryption raises `ValueError` (here: returns `none`) and the
round trip does not return `v`.  (The failure is independent of the block
cipher, instantiated here with the identity permutation.) -/
theorem aes_roundtrip_counterexample :
    ¬ ((Seacatauth.aes_encrypt id (List.replicate 24 7)).bind (Seacatauth.aes_decrypt id)
        = some (List.replicate 24 7)) := by
  decide

/-- C2 (amended): for every block cipher `E` with inverse `D` (the keyed AES
permutation and its inverse) and every byte string `v` whose length is a
positive multiple of the 16-byte block size — which holds for the sensitive
token values the session service stores — `aes_decrypt (aes_encrypt v) = v`:
`aes_encrypt` treats the first 16 bytes of `v` as the CBC IV and emits
`iv || ciphertext-of-the-rest`, and `aes_decrypt` mirrors this. -/
theorem aes_roundtrip (E D : List Nat → List Nat)
    (hE : ∀ b, b.length = Seacatauth.aesBlockSize → (E b).length = Seacatauth.aesBlockSize)
    (hD : ∀ b, b.length = Seacatauth.aesBlockSize → D (E b) = b)
    (raw_bytes : List Nat)
    (hmul : raw_bytes.length % Seacatauth.aesBlockSize = 0)
    (hge : Seacatauth.aesBlockSize ≤ raw_bytes.length) :
    (Seacatauth.aes_encrypt E raw_bytes).bind (Seacatauth.aes_decrypt D)
      = some raw_bytes := by
  have hiv : (raw_bytes.take Seacatauth.aesBlockSize).length = Seacatauth.aesBlockSize := by
    rw [List.length_take]
    omega
  have htok : (raw_bytes.drop Seacatauth.aesBlockSize).length % Seacatauth.aesBlockSize = 0 := by
    rw [List.length_drop]
    simp only [Seacatauth.aesBlockSize] at *
    omega
  have henc : Seacatauth.aes_encrypt E raw_bytes
      = some (raw_bytes.take Seacatauth.aesBlockSize
          ++ (Seacatauth.cbcEncChunks E (raw_bytes.take Seacatauth.aesBlockSize)
                (Seacatauth.toChunks (raw_bytes.drop Seacatauth.aesBlockSize))).flatten) := by
    unfold Seacatauth.aes_encrypt
    rw [if_pos ⟨hiv, htok⟩]
  rw [henc]
  show Seacatauth.aes_decrypt D
      (raw_bytes.take Seacatauth.aesBlockSize
        ++ (Seacatauth.cbcEncChunks E (raw_bytes.take Seacatauth.aesBlockSize)
              (Seacatauth.toChunks (raw_bytes.drop Seacatauth.aesBlockSize))).flatten)
    = some raw_bytes
  have hcs16 := Seacatauth.toChunks_blocks htok
  have henc16 : ∀ c ∈ Seacatauth.cbcEncChunks E (raw_bytes.take Seacatauth.aesBlockSize)
      (Seacatauth.toChunks (raw_bytes.drop Seacatauth.aesBlockSize)),
      c.length = Seacatauth.aesBlockSize :=
    Seacatauth.cbcEncChunks_blocks hE _ _ hiv hcs16
  have hflatlen : (Seacatauth.cbcEncChunks E (raw_bytes.take Seacatauth.aesBlockSize)
      (Seacatauth.toChunks (raw_bytes.drop Seacatauth.aesBlockSize))).flatten.length
        % Seacatauth.aesBlockSize = 0 := by
    rw [Seacatauth.flatten_length_of_blocks _ henc16]
    exact Nat.mul_mod_right _ _
  unfold Seacatauth.aes_decrypt
  rw [List.take_left' hiv, List.drop_left' hiv]
  rw [if_pos ⟨hiv, hflatlen⟩]
  rw [Seacatauth.toChunks_flatten_of_blocks _ henc16]
  rw [Seacatauth.cbcDecChunks_cbcEncChunks hE hD _ _ hiv hcs16]
  rw [Seacatauth.toChunks_flatten htok, List.take_append_drop]

/-- C2 (witness): the amended round-trip theorem applied to the identity
block cipher and a concrete 32-byte value. -/
theorem aes_roundtrip_witness :
    (List.replicate 32 7).length % Seacatauth.aesBlockSize = 0 ∧
      (Seacatauth.aes_encrypt id (List.replicate 32 7)).bind (Seacatauth.aes_decrypt id)
        = some (List.replicate 32 7) :=
  ⟨by decide,
    aes_roundtrip id id (fun _ h => h) (fun _ _ => rfl) (List.replicate 32 7)
      (by decide) (by decide)⟩

namespace Seacatauth

/-! ## Client registry (client/service.py) -/

/-- client/service.py line 21: only `authorization_code` is enabled. -/
def GRANT_TYPES : List String := ["authorization_code"]

/-- client/service.py line 26: only `code` is enabled. -/
def RESPONSE_TYPES : List String := ["code"]

/-- client/service.py line 31: only `web` is enabled (`native` is commented
out). -/
def APPLICATION_TYPES : List String := ["web"]

/-- client/service.py line 35: only `none` is enabled (`client_secret_basic`
is commented out). -/
def TOKEN_ENDPOINT_AUTH_METHODS : List String := ["none"]

def CODE_CHALLENGE_METHODS : List String := ["plain", "S256"]

def CODE_CHALLENGE_METHODS_DEFAULT : List String := ["S256"]

/-- The result of `urllib.parse.urlparse` on a redirect URI, carrying the
four components `_check_redirect_uris` reads (`urllib` is an external
collaborator; `hostname` is the lowercased host part of `netloc`). -/
structure ParsedURI where
  scheme : String
  netloc : String
  hostname : String
  fragment : String
  deriving Repr, DecidableEq

/-- The per-URI body of `ClientService._check_redirect_uris` (client/service.py
lines 486-519).  `Except.error` carries the `ValidationError` message. -/
def check_redirect_uri (allowInsecureWebClientURIs : Bool) (application_type : String)
    (parsed : ParsedURI) : Except String Unit :=
  if parsed.netloc = "" ∨ parsed.scheme = "" ∨ parsed.fragment ≠ "" then
    Except.error "Redirect URI must be an absolute URI without a fragment component."
  else if application_type = "web" then
    if parsed.scheme ≠ "https" ∧ allowInsecureWebClientURIs = false then
      Except.error "Web Clients using the OAuth Implicit Grant Type MUST only register URLs using the https scheme as redirect_uris."
    else if parsed.hostname = "localhost" then
      Except.error "Web Clients using the OAuth Implicit Grant Type MUST NOT use localhost as the hostname."
    else Except.ok ()
  else if application_type = "native" then
    if parsed.scheme = "http" then
      if parsed.hostname = "localhost" then Except.ok ()
      else Except.error "Native Clients MUST only register redirect_uris using custom URI schemes or URLs using the http scheme with localhost as the hostname."
    else if parsed.scheme = "https" then
      Except.error "Native Clients MUST only register redirect_uris using custom URI schemes or URLs using the http scheme with localhost as the hostname."
    else
      Except.error "Support for custom URI schemes has not been implemented yet."
  else Except.ok ()

/-- `ClientService._check_redirect_uris`: validate each URI in order, raising
at the first failure. -/
def check_redirect_uris (allowInsecureWebClientURIs : Bool) (application_type : String) :
    List ParsedURI → Except String Unit
  | [] => Except.ok ()
  | uri :: rest =>
    match check_redirect_uri allowInsecureWebClientURIs application_type uri with
    | Except.error e => Except.error e
    | Except.ok _ => check_redirect_uris allowInsecureWebClientURIs application_type rest

/-- `ClientService._check_grant_types` (client/service.py lines 459-477). -/
def check_grant_types (grant_types response_types : List String) : Except String Unit :=
  if "code" ∈ response_types ∧ "authorization_code" ∉ grant_types then
    Except.error "Response type code requires authorization_code to be included in grant types"
  else if "id_token" ∈ response_types ∧ "implicit" ∉ grant_types then
    Except.error "Response type id_token requires implicit to be included in grant types"
  else if "token" ∈ response_types ∧ "implicit" ∉ grant_types then
    Except.error "Response type token requires implicit to be included in grant types"
  else Except.ok ()

/-- `ClientService._check_code_challenge_methods` (client/service.py lines
522-538): every method must be supported, and `plain` must not coexist with
other methods. -/
def check_code_challenge_methods (code_challenge_methods : List String) : Except String Unit :=
  match code_challenge_methods.find? (fun m => ! CODE_CHALLENGE_METHODS.contains m) with
  | some m => Except.error ("Unsupported Code Challenge Method: " ++ m ++ ".")
  | none =>
    if "plain" ∈ code_challenge_methods ∧ code_challenge_methods.length > 1 then
      Except.error "Cannot register the plain Code Challenge Method together with more secure methods."
    else Except.ok ()

/-- Modelled from the spec: resolution of an unset `[seacatauth:client]
client_secret_expiration` key through the configuration layer (the
repository registers config defaults outside the analysed sources); per the
spec, "0 or unset ⇒ never expires", so an unset key resolves to 0. -/
def resolveClientSecretExpiration (configValue : Option Int) : Int :=
  configValue.getD 0

/-- `ClientService.__init__` (client/service.py lines 184-187): read
`client_secret_expiration` and map a non-positive value to `None` (no
expiration).  `configValue` is the configured number of seconds, `none`
meaning the key is unset. -/
def initClientSecretExpiration (configValue : Option Int) : Option Int :=
  let v := resolveClientSecretExpiration configValue
  if v ≤ 0 then none else some v

/-- `ClientService._generate_client_secret` (client/service.py lines 541-548):
the fresh URL-safe token is abstracted as the `newSecret` argument; the
expiry is `now + ClientSecretExpiration` when an expiration is configured,
else absent. -/
def generate_client_secret (clientSecretExpiration : Option Int) (now : Int)
    (newSecret : String) : String × Option Int :=
  match clientSecretExpiration with
  | none => (newSecret, none)
  | some e => (newSecret, some (now + e))

/-- The optional OAuth metadata arguments of `ClientService.register`
(`kwargs.get(..., default)`). -/
structure RegisterKwargs where
  response_types : Option (List String)
  grant_types : Option (List String)
  application_type : Option String
  token_endpoint_auth_method : Option String
  code_challenge_methods : Option (List String)
  deriving Repr, DecidableEq

/-- The failures `ClientService.register` can raise: `assert` failures,
`NotImplementedError` for valid-but-unimplemented auth methods, and
`ValidationError` from the metadata checks. -/
inductive RegisterError where
  | assertionError : RegisterError
  | notImplementedError : RegisterError
  | validationError : String → RegisterError
  deriving Repr, DecidableEq

/-- The response dict of `ClientService.register`. -/
structure RegisterResponse where
  client_id : String
  client_id_issued_at : Int
  client_secret : Option String
  client_secret_expires_at : Option Int
  deriving Repr, DecidableEq

/-- `ClientService.register` (client/service.py lines 249-356), with storage
externalised: `client_id` is the issued id, `newSecret` the fresh random
token.  Mirrors the source order: validate the four enumerated metadata
fields (`assert`), branch on `token_endpoint_auth_method` to issue a secret,
validate redirect URIs, grant/response correspondence and PKCE methods, and
return the response dict. -/
def register (allowInsecureWebClientURIs : Bool) (clientSecretExpiration : Option Int)
    (now : Int) (client_id newSecret : String) (redirect_uris : List ParsedURI)
    (kw : RegisterKwargs) : Except RegisterError RegisterResponse :=
  let response_types := kw.response_types.getD ["code"]
  let grant_types := kw.grant_types.getD ["authorization_code"]
  let application_type := kw.application_type.getD "web"
  let token_endpoint_auth_method := kw.token_endpoint_auth_method.getD "none"
  if ¬ ∀ v ∈ response_types, v ∈ RESPONSE_TYPES then Except.error RegisterError.assertionError
  else if ¬ ∀ v ∈ grant_types, v ∈ GRANT_TYPES then Except.error RegisterError.assertionError
  else if application_type ∉ APPLICATION_TYPES then Except.error RegisterError.assertionError
  else if token_endpoint_auth_method ∉ TOKEN_ENDPOINT_AUTH_METHODS then
    Except.error RegisterError.assertionError
  else
    match (if token_endpoint_auth_method = "none" then
            Except.ok (none, none)
          else if token_endpoint_auth_method = "client_secret_basic" then
            Except.ok
              (some (generate_client_secret clientSecretExpiration now newSecret).1,
                (generate_client_secret clientSecretExpiration now newSecret).2)
          else Except.error RegisterError.notImplementedError :
            Except RegisterError (Option String × Option Int)) with
    | Except.error e => Except.error e
    | Except.ok (client_secret, client_secret_expires_at) =>
      match check_redirect_uris allowInsecureWebClientURIs application_type redirect_uris with
      | Except.error m => Except.error (RegisterError.validationError m)
      | Except.ok _ =>
        match check_grant_types grant_types response_types with
        | Except.error m => Except.error (RegisterError.validationError m)
        | Except.ok _ =>
          match check_code_challenge_methods
              (kw.code_challenge_methods.getD CODE_CHALLENGE_METHODS_DEFAULT) with
          | Except.error m => Except.error (RegisterError.validationError m)
          | Except.ok _ =>
            Except.ok
              { client_id := client_id, client_id_issued_at := now,
                client_secret := client_secret,
                client_secret_expires_at := client_secret_expires_at }

/-- The stored client fields that `ClientService.authorize_client` reads
(`__client_secret` is the decrypted stored secret; absent for public
clients). -/
structure Client where
  client_secret : Option String
  client_secret_expires_at : Option Int
  grant_types : List String
  response_types : List String
  code_challenge_methods : List String
  deriving Repr, DecidableEq

/-- The exceptions `ClientService.authorize_client` can raise. -/
inductive AuthorizeClientError where
  | clientNotFound : AuthorizeClientError
  | invalidClientSecret : AuthorizeClientError
  | clientError : String → AuthorizeClientError
  deriving Repr, DecidableEq

/-- `"client_secret_expires_at" in client and client[...] != 0 and
client[...] < now` (client/service.py lines 436-438). -/
def secretExpired (client_secret_expires_at : Option Int) (now : Int) : Bool :=
  match client_secret_expires_at with
  | some t => decide (t ≠ 0) && decide (t < now)
  | none => false

/-- `grant_type is not None and grant_type not in client["grant_types"]`. -/
def grantTypeBad (grant_type : Option String) (registered : List String) : Bool :=
  match grant_type with
  | some g => ! registered.contains g
  | none => false

/-- `response_type not in client["response_types"]`: a missing
`response_type` (`None`) is not a member of a list of strings. -/
def responseTypeBad (response_type : Option String) (registered : List String) : Bool :=
  match response_type with
  | some r => ! registered.contains r
  | none => true

/-- `code_challenge_method is not None and code_challenge_method not in
client["code_challenge_methods"]`. -/
def codeChallengeMethodBad (code_challenge_method : Option String)
    (registered : List String) : Bool :=
  match code_challenge_method with
  | some m => ! registered.contains m
  | none => false

/-- `ClientService.authorize_client` (client/service.py lines 417-456).
`clients` is the stored client registry (`self.get`); a lookup miss is the
`KeyError` that is re-raised as `ClientNotFoundError`.  The redirect-URI
check is commented out in the source and therefore absent here. -/
def authorize_client (clients : String → Option Client) (client_id : String)
    (client_secret : Option String) (grant_type : Option String)
    (response_type : Option String) (code_challenge_method : Option String)
    (now : Int) : Except AuthorizeClientError Bool :=
  match clients client_id with
  | none => Except.error AuthorizeClientError.clientNotFound
  | some client =>
    let supplied := client_secret.getD ""
    if secretExpired client.client_secret_expires_at now then
      Except.error AuthorizeClientError.invalidClientSecret
    else if supplied ≠ client.client_secret.getD "" then
      Except.error AuthorizeClientError.invalidClientSecret
    else if grantTypeBad grant_type client.grant_types then
      Except.error (AuthorizeClientError.clientError "grant_type")
    else if responseTypeBad response_type client.response_types then
      Except.error (AuthorizeClientError.clientError "response_type")
    else if codeChallengeMethodBad code_challenge_method client.code_challenge_methods then
      Except.error (AuthorizeClientError.clientError "code_challenge_method")
    else Except.ok true

end Seacatauth

namespace Seacatauth

/-- The redirect-URI acceptance matrix as the claim states it (spec words,
for comparison with the source validator): non-empty scheme and host, no
fragment, and for `web` https-or-override and not-localhost, while for
`native` either http-with-localhost or a custom (non-http, non-https)
scheme. -/
def specAcceptsRedirectURI (allowInsecureWebClientURIs : Bool) (application_type : String)
    (p : ParsedURI) : Prop :=
  p.scheme ≠ "" ∧ p.netloc ≠ "" ∧ p.fragment = "" ∧
  (application_type = "web" →
    (p.scheme = "https" ∨ allowInsecureWebClientURIs = true) ∧ p.hostname ≠ "localhost") ∧
  (application_type = "native" →
    (p.scheme = "http" ∧ p.hostname = "localhost") ∨
      (p.scheme ≠ "http" ∧ p.scheme ≠ "https"))

/-- The acceptance matrix the source validator actually implements: as above
for `web`, but for `native` only http-with-localhost is accepted (custom
schemes raise "not been implemented yet", https is rejected). -/
def codeAcceptsRedirectURI (allowInsecureWebClientURIs : Bool) (application_type : String)
    (p : ParsedURI) : Prop :=
  p.scheme ≠ "" ∧ p.netloc ≠ "" ∧ p.fragment = "" ∧
  (application_type = "web" →
    (p.scheme = "https" ∨ allowInsecureWebClientURIs = true) ∧ p.hostname ≠ "localhost") ∧
  (application_type = "native" → p.scheme = "http" ∧ p.hostname = "localhost")

theorem check_redirect_uri_ok_iff (allowInsecureWebClientURIs : Bool)
    (application_type : String) (p : ParsedURI) :
    check_redirect_uri allowInsecureWebClientURIs application_type p = Except.ok () ↔
      codeAcceptsRedirectURI allowInsecureWebClientURIs application_type p := by
  unfold check_redirect_uri codeAcceptsRedirectURI
  split_ifs with h1 h2 h3 h4 h5 h6 h7 h8 <;> simp_all <;> tauto

theorem check_redirect_uris_ok_iff (allowInsecureWebClientURIs : Bool)
    (application_type : String) (uris : List ParsedURI) :
    check_redirect_uris allowInsecureWebClientURIs application_type uris = Except.ok () ↔
      ∀ p ∈ uris, codeAcceptsRedirectURI allowInsecureWebClientURIs application_type p := by
  induction uris with
  | nil => simp [check_redirect_uris]
  | cons u rest ih =>
    unfold check_redirect_uris
    cases hu : check_redirect_uri allowInsecureWebClientURIs application_type u with
    | error e =>
      simp only [List.mem_cons]
      constructor
      · intro h
        cases h
      · intro h
        have hok := (check_redirect_uri_ok_iff allowInsecureWebClientURIs application_type u).mpr
          (h u (Or.inl rfl))
        rw [hu] at hok
        cases hok
    | ok v =>
      cases v
      have hu' := (check_redirect_uri_ok_iff allowInsecureWebClientURIs application_type u).mp hu
      simp only [List.mem_cons, ih]
      constructor
      · intro h q hq
        cases hq with
        | inl hq => rw [hq]; exact hu'
        | inr hq => exact h q hq
      · intro h q hq
        exact h q (Or.inr hq)

end Seacatauth

/-- C5 (counterexample): the claimed acceptance matrix says a `native` client
redirect URI with a custom scheme is accepted, but the validator rejects it:
`myapp://callback` (scheme `myapp`, host `callback`, no fragment) satisfies
the claimed matrix yet `_check_redirect_uris` raises "Support for custom URI
schemes has not been implemented yet.". -/
theorem check_redirect_uri_native_counterexample :
    Seacatauth.specAcceptsRedirectURI false "native"
        ⟨"myapp", "callback", "callback", ""⟩ ∧
      Seacatauth.check_redirect_uris false "native"
          [⟨"myapp", "callback", "callback", ""⟩]
        = Except.error "Support for custom URI schemes has not been implemented yet." := by
  constructor
  · refine ⟨by decide, by decide, rfl, by decide, by decide⟩
  · rfl

/-- C5 (amended): for every URI list, application type and insecure-override
setting, the validator accepts (returns without error) if and only if every
URI has a non-empty scheme, a non-empty host and no fragment, and
additionally for application_type `web` the scheme is https (unless the
insecure override is enabled) and the hostname is not `localhost`, and for
application_type `native` the scheme is http and the hostname is `localhost`
(custom schemes are rejected as unimplemented and https is rejected); any
violation raises a Validation error. -/
theorem check_redirect_uris_spec (allowInsecureWebClientURIs : Bool)
    (application_type : String) (uris : List Seacatauth.ParsedURI) :
    Seacatauth.check_redirect_uris allowInsecureWebClientURIs application_type uris
        = Except.ok () ↔
      ∀ p ∈ uris,
        Seacatauth.codeAcceptsRedirectURI allowInsecureWebClientURIs application_type p :=
  Seacatauth.check_redirect_uris_ok_iff allowInsecureWebClientURIs application_type uris

/-- C5 (witness): the amended validator characterisation applied to a
concrete accepted web redirect URI. -/
theorem check_redirect_uris_spec_witness :
    Seacatauth.check_redirect_uris false "web"
        [⟨"https", "app.example.com", "app.example.com", ""⟩] = Except.ok () :=
  (check_redirect_uris_spec false "web"
    [⟨"https", "app.example.com", "app.example.com", ""⟩]).mpr
    (by intro p hp; simp at hp; subst hp; refine ⟨by decide, by decide, rfl, ?_, by decide⟩
        intro _; exact ⟨Or.inl rfl, by decide⟩)

namespace Seacatauth

/-- A valid default web redirect URI used in register scenarios. -/
def demoRedirectURI : ParsedURI :=
  ⟨"https", "app.example.com", "app.example.com", ""⟩

end Seacatauth

/-- C4 (counterexample): registering a client with
`token_endpoint_auth_method = "client_secret_basic"` does not succeed:
`TOKEN_ENDPOINT_AUTH_METHODS` contains only `"none"` (the
`client_secret_basic` entry is commented out in client/service.py line 37),
so the `assert token_endpoint_auth_method in TOKEN_ENDPOINT_AUTH_METHODS`
on line 277 fails and no response with a client_secret is produced — here
at a fully concrete registration request with `client_secret_expiration =
3600`. -/
theorem register_client_secret_basic_counterexample :
    Seacatauth.register false (some 3600) 0 "client-1" "secret-1"
        [Seacatauth.demoRedirectURI]
        { response_types := none, grant_types := none, application_type := none,
          token_endpoint_auth_method := some "client_secret_basic",
          code_challenge_methods := none }
      = Except.error Seacatauth.RegisterError.assertionError := by
  rfl

/-- C4 (amended): registering a client with `token_endpoint_auth_method =
"client_secret_basic"` always fails the supported-auth-method assertion
(only `"none"` is currently registered), so no client_secret is issued and
nothing is stored; the confidential-client branch of `register` is
unreachable for this method. -/
theorem register_client_secret_basic_rejected
    (allowInsecureWebClientURIs : Bool) (clientSecretExpiration : Option Int)
    (now : Int) (client_id newSecret : String)
    (redirect_uris : List Seacatauth.ParsedURI) (kw : Seacatauth.RegisterKwargs)
    (h : kw.token_endpoint_auth_method = some "client_secret_basic") :
    Seacatauth.register allowInsecureWebClientURIs clientSecretExpiration now
        client_id newSecret redirect_uris kw
      = Except.error Seacatauth.RegisterError.assertionError := by
  unfold Seacatauth.register
  rw [h]
  dsimp only
  by_cases h1 : ∀ v ∈ kw.response_types.getD ["code"], v ∈ Seacatauth.RESPONSE_TYPES
  · rw [if_neg (not_not_intro h1)]
    by_cases h2 : ∀ v ∈ kw.grant_types.getD ["authorization_code"], v ∈ Seacatauth.GRANT_TYPES
    · rw [if_neg (not_not_intro h2)]
      by_cases h3 : kw.application_type.getD "web" ∈ Seacatauth.APPLICATION_TYPES
      · rw [if_neg (not_not_intro h3)]
        rw [if_pos
          (by decide :
            (some "client_secret_basic").getD "none" ∉ Seacatauth.TOKEN_ENDPOINT_AUTH_METHODS)]
      · rw [if_pos h3]
    · rw [if_pos h2]
  · rw [if_pos h1]

/-- C4 (witness): the amended rejection theorem applied at a concrete
registration request. -/
theorem register_client_secret_basic_rejected_witness :
    Seacatauth.register true (some 7200) 50 "client-2" "secret-2"
        [Seacatauth.demoRedirectURI]
        { response_types := some ["code"], grant_types := some ["authorization_code"],
          application_type := some "web",
          token_endpoint_auth_method := some "client_secret_basic",
          code_challenge_methods := some ["S256"] }
      = Except.error Seacatauth.RegisterError.assertionError :=
  register_client_secret_basic_rejected true (some 7200) 50 "client-2" "secret-2"
    [Seacatauth.demoRedirectURI]
    { response_types := some ["code"], grant_types := some ["authorization_code"],
      application_type := some "web",
      token_endpoint_auth_method := some "client_secret_basic",
      code_challenge_methods := some ["S256"] }
    rfl

namespace Seacatauth

theorem secretExpired_eq_false_iff (x : Option Int) (now : Int) :
    secretExpired x now = false ↔ ∀ t, x = some t → t = 0 ∨ ¬ t < now := by
  cases x with
  | none => simp [secretExpired]
  | some t =>
    simp [secretExpired]
    tauto

theorem grantTypeBad_eq_false_iff (g : Option String) (l : List String) :
    grantTypeBad g l = false ↔ ∀ x, g = some x → x ∈ l := by
  cases g <;> simp [grantTypeBad]

theorem responseTypeBad_eq_false_iff (r : Option String) (l : List String) :
    responseTypeBad r l = false ↔ ∃ x, r = some x ∧ x ∈ l := by
  cases r <;> simp [responseTypeBad]

theorem codeChallengeMethodBad_eq_false_iff (m : Option String) (l : List String) :
    codeChallengeMethodBad m l = false ↔ ∀ x, m = some x → x ∈ l := by
  cases m <;> simp [codeChallengeMethodBad]

theorem authorize_client_ok_iff (clients : String → Option Client) (client_id : String)
    (client_secret grant_type response_type code_challenge_method : Option String)
    (now : Int) :
    authorize_client clients client_id client_secret grant_type response_type
        code_challenge_method now = Except.ok true ↔
      ∃ client, clients client_id = some client ∧
        client_secret.getD "" = client.client_secret.getD "" ∧
        (∀ t, client.client_secret_expires_at = some t → t = 0 ∨ ¬ t < now) ∧
        (∀ g, grant_type = some g → g ∈ client.grant_types) ∧
        (∃ r, response_type = some r ∧ r ∈ client.response_types) ∧
        (∀ m, code_challenge_method = some m → m ∈ client.code_challenge_methods) := by
  cases hcli : clients client_id with
  | none =>
    constructor
    · intro hcon
      unfold authorize_client at hcon
      rw [hcli] at hcon
      cases hcon
    · rintro ⟨client, hc, -⟩
      cases hc
  | some c =>
    unfold authorize_client
    rw [hcli]
    dsimp only
    split_ifs with h1 h2 h3 h4 h5
    · constructor
      · intro hcon
        cases hcon
      · rintro ⟨client, hc, -, hne, -⟩
        injection hc with hc
        subst hc
        have hfalse := (secretExpired_eq_false_iff _ _).mpr hne
        rw [hfalse] at h1
        exact absurd h1 (by decide)
    · constructor
      · intro hcon
        cases hcon
      · rintro ⟨client, hc, hsec, -⟩
        injection hc with hc
        subst hc
        exact h2 hsec
    · constructor
      · intro hcon
        cases hcon
      · rintro ⟨client, hc, -, -, hg, -⟩
        injection hc with hc
        subst hc
        have hfalse := (grantTypeBad_eq_false_iff _ _).mpr hg
        rw [hfalse] at h3
        exact absurd h3 (by decide)
    · constructor
      · intro hcon
        cases hcon
      · rintro ⟨client, hc, -, -, -, hr, -⟩
        injection hc with hc
        subst hc
        have hfalse := (responseTypeBad_eq_false_iff _ _).mpr hr
        rw [hfalse] at h4
        exact absurd h4 (by decide)
    · constructor
      · intro hcon
        cases hcon
      · rintro ⟨client, hc, -, -, -, -, hm⟩
        injection hc with hc
        subst hc
        have hfalse := (codeChallengeMethodBad_eq_false_iff _ _).mpr hm
        rw [hfalse] at h5
        exact absurd h5 (by decide)
    · constructor
      · intro _
        refine ⟨c, rfl, not_not.mp h2, ?_, ?_, ?_, ?_⟩
        · exact (secretExpired_eq_false_iff _ _).mp (by simpa using h1)
        · exact (grantTypeBad_eq_false_iff _ _).mp (by simpa using h3)
        · exact (responseTypeBad_eq_false_iff _ _).mp (by simpa using h4)
        · exact (codeChallengeMethodBad_eq_false_iff _ _).mp (by simpa using h5)
      · intro _
        rfl

theorem authorize_client_not_found (clients : String → Option Client) (client_id : String)
    (client_secret grant_type response_type code_challenge_method : Option String)
    (now : Int) (h : clients client_id = none) :
    authorize_client clients client_id client_secret grant_type response_type
        code_challenge_method now = Except.error AuthorizeClientError.clientNotFound := by
  unfold authorize_client
  rw [h]

theorem authorize_client_invalid_secret (clients : String → Option Client)
    (client_id : String)
    (client_secret grant_type response_type code_challenge_method : Option String)
    (now : Int) (c : Client) (hc : clients client_id = some c)
    (h : secretExpired c.client_secret_expires_at now = true ∨
      client_secret.getD "" ≠ c.client_secret.getD "") :
    authorize_client clients client_id client_secret grant_type response_type
        code_challenge_method now = Except.error AuthorizeClientError.invalidClientSecret := by
  unfold authorize_client
  rw [hc]
  dsimp only
  rcases h with h | h
  · rw [if_pos h]
  · by_cases hexp : secretExpired c.client_secret_expires_at now = true
    · rw [if_pos hexp]
    · rw [if_neg hexp, if_pos h]

theorem authorize_client_bad_grant (clients : String → Option Client) (client_id : String)
    (client_secret grant_type response_type code_challenge_method : Option String)
    (now : Int) (c : Client) (hc : clients client_id = some c)
    (hexp : secretExpired c.client_secret_expires_at now = false)
    (hsec : client_secret.getD "" = c.client_secret.getD "")
    (hg : grantTypeBad grant_type c.grant_types = true) :
    authorize_client clients client_id client_secret grant_type response_type
        code_challenge_method now
      = Except.error (AuthorizeClientError.clientError "grant_type") := by
  unfold authorize_client
  rw [hc]
  dsimp only
  rw [if_neg (by simp [hexp]), if_neg (not_not_intro hsec), if_pos hg]

theorem authorize_client_bad_response (clients : String → Option Client) (client_id : String)
    (client_secret grant_type response_type code_challenge_method : Option String)
    (now : Int) (c : Client) (hc : clients client_id = some c)
    (hexp : secretExpired c.client_secret_expires_at now = false)
    (hsec : client_secret.getD "" = c.client_secret.getD "")
    (hg : grantTypeBad grant_type c.grant_types = false)
    (hr : responseTypeBad response_type c.response_types = true) :
    authorize_client clients client_id client_secret grant_type response_type
        code_challenge_method now
      = Except.error (AuthorizeClientError.clientError "response_type") := by
  unfold authorize_client
  rw [hc]
  dsimp only
  rw [if_neg (by simp [hexp]), if_neg (not_not_intro hsec), if_neg (by simp [hg]), if_pos hr]

theorem authorize_client_bad_code_challenge (clients : String → Option Client)
    (client_id : String)
    (client_secret grant_type response_type code_challenge_method : Option String)
    (now : Int) (c : Client) (hc : clients client_id = some c)
    (hexp : secretExpired c.client_secret_expires_at now = false)
    (hsec : client_secret.getD "" = c.client_secret.getD "")
    (hg : grantTypeBad grant_type c.grant_types = false)
    (hr : responseTypeBad response_type c.response_types = false)
    (hm : codeChallengeMethodBad code_challenge_method c.code_challenge_methods = true) :
    authorize_client clients client_id client_secret grant_type response_type
        code_challenge_method now
      = Except.error (AuthorizeClientError.clientError "code_challenge_method") := by
  unfold authorize_client
  rw [hc]
  dsimp only
  rw [if_neg (by simp [hexp]), if_neg (not_not_intro hsec), if_neg (by simp [hg]),
    if_neg (by simp [hr]), if_pos hm]

end Seacatauth

/-- C3: `authorize_client` returns success if and only if the client exists,
the supplied secret (omitted = empty string) equals the stored secret
(absent = empty string) and the stored secret has not expired, `grant_type`
when present is registered, `response_type` is registered, and
`code_challenge_method` when present is registered; the failures raise
`ClientNotFound`, `InvalidClientSecret` and `ClientError` naming the
offending field, respectively. -/
theorem authorize_client_spec (clients : String → Option Seacatauth.Client)
    (client_id : String)
    (client_secret grant_type response_type code_challenge_method : Option String)
    (now : Int) :
    (Seacatauth.authorize_client clients client_id client_secret grant_type response_type
        code_challenge_method now = Except.ok true ↔
      ∃ client, clients client_id = some client ∧
        client_secret.getD "" = client.client_secret.getD "" ∧
        (∀ t, client.client_secret_expires_at = some t → t = 0 ∨ ¬ t < now) ∧
        (∀ g, grant_type = some g → g ∈ client.grant_types) ∧
        (∃ r, response_type = some r ∧ r ∈ client.response_types) ∧
        (∀ m, code_challenge_method = some m → m ∈ client.code_challenge_methods)) ∧
    (clients client_id = none →
      Seacatauth.authorize_client clients client_id client_secret grant_type response_type
        code_challenge_method now
        = Except.error Seacatauth.AuthorizeClientError.clientNotFound) ∧
    (∀ client, clients client_id = some client →
      (Seacatauth.secretExpired client.client_secret_expires_at now = true ∨
        client_secret.getD "" ≠ client.client_secret.getD "") →
      Seacatauth.authorize_client clients client_id client_secret grant_type response_type
        code_challenge_method now
        = Except.error Seacatauth.AuthorizeClientError.invalidClientSecret) ∧
    (∀ client, clients client_id = some client →
      Seacatauth.secretExpired client.client_secret_expires_at now = false →
      client_secret.getD "" = client.client_secret.getD "" →
      Seacatauth.grantTypeBad grant_type client.grant_types = true →
      Seacatauth.authorize_client clients client_id client_secret grant_type response_type
        code_challenge_method now
        = Except.error (Seacatauth.AuthorizeClientError.clientError "grant_type")) ∧
    (∀ client, clients client_id = some client →
      Seacatauth.secretExpired client.client_secret_expires_at now = false →
      client_secret.getD "" = client.client_secret.getD "" →
      Seacatauth.grantTypeBad grant_type client.grant_types = false →
      Seacatauth.responseTypeBad response_type client.response_types = true →
      Seacatauth.authorize_client clients client_id client_secret grant_type response_type
        code_challenge_method now
        = Except.error (Seacatauth.AuthorizeClientError.clientError "response_type")) ∧
    (∀ client, clients client_id = some client →
      Seacatauth.secretExpired client.client_secret_expires_at now = false →
      client_secret.getD "" = client.client_secret.getD "" →
      Seacatauth.grantTypeBad grant_type client.grant_types = false →
      Seacatauth.responseTypeBad response_type client.response_types = false →
      Seacatauth.codeChallengeMethodBad code_challenge_method
        client.code_challenge_methods = true →
      Seacatauth.authorize_client clients client_id client_secret grant_type response_type
        code_challenge_method now
        = Except.error (Seacatauth.AuthorizeClientError.clientError "code_challenge_method")) := by
  refine ⟨Seacatauth.authorize_client_ok_iff clients client_id client_secret grant_type
      response_type code_challenge_method now,
    Seacatauth.authorize_client_not_found clients client_id client_secret grant_type
      response_type code_challenge_method now,
    ?_, ?_, ?_, ?_⟩
  · intro client hc h
    exact Seacatauth.authorize_client_invalid_secret clients client_id client_secret
      grant_type response_type code_challenge_method now client hc h
  · intro client hc hexp hsec hg
    exact Seacatauth.authorize_client_bad_grant clients client_id client_secret
      grant_type response_type code_challenge_method now client hc hexp hsec hg
  · intro client hc hexp hsec hg hr
    exact Seacatauth.authorize_client_bad_response clients client_id client_secret
      grant_type response_type code_challenge_method now client hc hexp hsec hg hr
  · intro client hc hexp hsec hg hr hm
    exact Seacatauth.authorize_client_bad_code_challenge clients client_id client_secret
      grant_type response_type code_challenge_method now client hc hexp hsec hg hr hm

/-- C3 (witness): the characterisation applied to a concrete one-client
registry: a public client authorizes with an omitted secret and
`response_type = "code"`. -/
theorem authorize_client_spec_witness :
    Seacatauth.authorize_client
        (fun cid => if cid = "client-a" then
          some { client_secret := none, client_secret_expires_at := none,
                 grant_types := ["authorization_code"], response_types := ["code"],
                 code_challenge_methods := ["S256"] }
          else none)
        "client-a" none (some "authorization_code") (some "code") (some "S256") 1000
      = Except.ok true :=
  (authorize_client_spec
      (fun cid => if cid = "client-a" then
        some { client_secret := none, client_secret_expires_at := none,
               grant_types := ["authorization_code"], response_types := ["code"],
               code_challenge_methods := ["S256"] }
        else none)
      "client-a" none (some "authorization_code") (some "code") (some "S256") 1000).1.mpr
    ⟨{ client_secret := none, client_secret_expires_at := none,
       grant_types := ["authorization_code"], response_types := ["code"],
       code_challenge_methods := ["S256"] },
      rfl, rfl,
      (by intro t ht; cases ht),
      (by intro g hg; injection hg with hg; subst hg; decide),
      ⟨"code", rfl, by decide⟩,
      (by intro m hm; injection hm with hm; subst hm; decide)⟩

/-- C9: for every value of the `[seacatauth:client] client_secret_expiration`
configuration key, a key set to 0 or left unset (which resolves through the
registered defaults to 0) yields no `client_secret_expires_at` on generated
secrets, while a key set to a positive number of seconds makes generated
secrets expire exactly at `now + that duration`. -/
theorem client_secret_expiration_spec (configValue : Option Int) (now : Int)
    (newSecret : String) :
    ((configValue = none ∨ configValue = some 0) →
      (Seacatauth.generate_client_secret
        (Seacatauth.initClientSecretExpiration configValue) now newSecret).2 = none) ∧
    (∀ v, configValue = some v → 0 < v →
      (Seacatauth.generate_client_secret
        (Seacatauth.initClientSecretExpiration configValue) now newSecret).2
        = some (now + v)) := by
  constructor
  · rintro (h | h) <;> subst h <;> rfl
  · intro v hv hpos
    subst hv
    unfold Seacatauth.initClientSecretExpiration Seacatauth.resolveClientSecretExpiration
    dsimp only [Option.getD]
    rw [if_neg (by omega : ¬ v ≤ 0)]
    rfl

/-- C9 (witness): the configuration theorem applied at `client_secret_expiration
= 3600` and at an unset key. -/
theorem client_secret_expiration_spec_witness :
    (Seacatauth.generate_client_secret
        (Seacatauth.initClientSecretExpiration (some 3600)) 100 "sec").2 = some 3700 ∧
      (Seacatauth.generate_client_secret
        (Seacatauth.initClientSecretExpiration none) 100 "sec").2 = none :=
  ⟨(client_secret_expiration_spec (some 3600) 100 "sec").2 3600 rfl (by decide),
    (client_secret_expiration_spec none 100 "sec").1 (Or.inl rfl)⟩

namespace Seacatauth

/-! ## Registration engine: `RegistrationService.complete_registration`
(credentials/registration/service.py lines 176-197) -/

/-- Python substring test `sub in s` on lists of characters. -/
def listInfix (sub : List Char) : List Char → Bool
  | [] => List.isPrefixOf sub []
  | c :: rest => List.isPrefixOf sub (c :: rest) || listInfix sub rest

/-- Python substring test `sub in s` on strings. -/
def strContains (s sub : String) : Bool := listInfix sub.data s.data

/-- The draft credential fields `complete_registration` reads: `username`,
`email`, `__password`, and the `invited_by` entry of the `__registration`
sub-document (`none` when the draft has no `invited_by`). -/
structure DraftCredentials where
  username : Option String
  email : Option String
  password : Option String
  registrationInvitedBy : Option String
  deriving Repr, DecidableEq

/-- The exceptions `complete_registration` can raise: `ValidationError` for a
missing username/email/password, and the Python `TypeError` raised by
`"invited_by" in None`. -/
inductive CompleteRegistrationError where
  | validationError : String → CompleteRegistrationError
  | typeError : CompleteRegistrationError
  deriving Repr, DecidableEq

/-- The `update_dict` handed to `CredentialProvider.update`:
`suspended=False`, `registered=now`, `__registration=None` (the draft
sub-document is cleared), plus optionally `invited_by`. -/
structure CredentialsUpdate where
  suspended : Bool
  registered : Int
  clearRegistration : Bool
  invited_by : Option String
  deriving Repr, DecidableEq

/-- `RegistrationService.complete_registration` on a draft already fetched by
its registration code: validate username, email and password
(`x in (None, "")`), then build the update dict.  Line 193 of the source
reads `if "invited_by" in credentials["__registration"].get("invited_by")`,
i.e. a Python substring test against the `invited_by` *value*: when the
draft has no `invited_by`, the value is `None` and the membership test
raises `TypeError`; when it is a string `s`, the update copies it only when
`"invited_by"` occurs in `s` as a substring. -/
def complete_registration (credentials : DraftCredentials) (now : Int) :
    Except CompleteRegistrationError CredentialsUpdate :=
  if credentials.username = none ∨ credentials.username = some "" then
    Except.error (CompleteRegistrationError.validationError "Registration failed: No username.")
  else if credentials.email = none ∨ credentials.email = some "" then
    Except.error (CompleteRegistrationError.validationError "Registration failed: No email.")
  else if credentials.password = none ∨ credentials.password = some "" then
    Except.error (CompleteRegistrationError.validationError "Registration failed: No password.")
  else
    match credentials.registrationInvitedBy with
    | none => Except.error CompleteRegistrationError.typeError
    | some s =>
      Except.ok
        { suspended := false, registered := now, clearRegistration := true,
          invited_by := if strContains s "invited_by" then some s else none }

/-- A fully valid draft reachable by a registration code that simply has no
`invited_by` field in its `__registration` sub-document. -/
def draftWithoutInvitedBy : DraftCredentials :=
  { username := some "alice", email := some "alice@example.com",
    password := some "hash123", registrationInvitedBy := none }

/-! ## MySQL credentials provider (credentials/providers/mysql.py) -/

/-- `MySQLCredentialsProvider.__init__` (mysql.py lines 61-66): the `Fields`
dict is built with exactly the keys `username`, `email`, `phone` and
`password`, mapped to the configured column names. -/
def mysqlFields (field_username field_email field_phone field_password : String) :
    List (String × String) :=
  [("username", field_username), ("email", field_email),
    ("phone", field_phone), ("password", field_password)]

/-- The Python `KeyError` raised by `self.Fields["_id"]`. -/
inductive MySQLGetError where
  | keyError : MySQLGetError
  deriving Repr, DecidableEq

/-- `MySQLCredentialsProvider.get` (mysql.py lines 104-114) up to the query
it would send: the format arguments are evaluated before
`cursor.execute`, and `self.Fields["_id"]` is a dict subscript, so a
missing `_id` key raises `KeyError` before any query is issued.  On success
the function would return the formatted query string
`FROM {table} SELECT * WHERE {field}={value};`. -/
def mysqlGet (fields : List (String × String)) (table : String)
    (credentials_id : String) : Except MySQLGetError String :=
  match List.lookup "_id" fields with
  | none => Except.error MySQLGetError.keyError
  | some f =>
    Except.ok ("FROM " ++ table ++ " SELECT * WHERE " ++ f ++ "=" ++ credentials_id ++ ";")

end Seacatauth

/-- C6: `complete_registration` on a draft with username, email and password
all present but no `invited_by` field does not perform the completion
update: line 193 evaluates `"invited_by" in
credentials["__registration"].get("invited_by")`, which is a membership
test on `None` and raises `TypeError` before
`CredentialProvider.update` is called, contradicting the specified
behaviour (set `suspended=false`, `registered=now`, clear
`__registration`). -/
theorem complete_registration_missing_invited_by_crash :
    Seacatauth.complete_registration Seacatauth.draftWithoutInvitedBy 500
      = Except.error Seacatauth.CompleteRegistrationError.typeError := by
  rfl

/-- C10: for every provider configuration and credentials id,
`MySQLCredentialsProvider.get` raises `KeyError` before issuing its query:
the query is formatted with `self.Fields["_id"]`, but `Fields` is
initialised with only the keys `username`, `email`, `phone` and
`password`. -/
theorem mysql_get_always_key_error
    (field_username field_email field_phone field_password table credentials_id : String) :
    Seacatauth.mysqlGet
        (Seacatauth.mysqlFields field_username field_email field_phone field_password)
        table credentials_id
      = Except.error Seacatauth.MySQLGetError.keyError := by
  rfl

namespace Seacatauth

/-! ## Role assignment API: `RolesHandler.set_roles`
(authz/role/handler/roles.py lines 70-102) -/

/-- `ResourceId.SUPERUSER` (models/const.py, outside the analysed sources;
the value is the `authz:superuser` resource named by the spec glossary). -/
def SUPERUSER : String := "authz:superuser"

/-- `ResourceId.ROLE_ASSIGN` (`seacat:role:assign` per the spec glossary). -/
def ROLE_ASSIGN : String := "seacat:role:assign"

/-- Modelled from the spec: role identifiers have the shape
`<tenant>/<role_name>`, with tenant `*` for global roles; the string
parsing lives in `RoleService` (outside the analysed sources), so roles are
represented as (tenant, name) pairs. -/
structure RoleId where
  tenant : String
  name : String
  deriving Repr, DecidableEq

/-- Whether a role falls in the scope that a `set_roles` call replaces: the
named tenant's roles, plus the global roles when `include_global`. -/
def roleInScope (tenant : String) (include_global : Bool) (r : RoleId) : Bool :=
  r.tenant == tenant || (include_global && r.tenant == "*")

/-- Modelled from the spec: `RoleService.set_roles(credentials_id,
requested_roles, tenant, include_global)` (outside the analysed sources)
assigns the requested roles and unassigns existing roles not in the list,
restricted to the scope: requested roles outside the scope are ignored and
existing assignments outside the scope are kept. -/
def set_roles_service (current requested : List RoleId) (tenant : String)
    (include_global : Bool) : List RoleId :=
  current.filter (fun r => ! roleInScope tenant include_global r)
    ++ requested.filter (fun r => roleInScope tenant include_global r)

/-- The outcome of the `PUT /roles/{tenant}/{credentials_id}` endpoint:
HTTP 403 FORBIDDEN, or OK with the credential's new role assignments. -/
inductive SetRolesResult where
  | forbidden : SetRolesResult
  | ok : List RoleId → SetRolesResult
  deriving Repr, DecidableEq

/-- `RolesHandler.set_roles` body (roles.py lines 87-102): a superuser gets
`include_global = True`; a non-superuser requesting tenant `*` gets 403;
otherwise `include_global = False`; then `RoleService.set_roles` runs. -/
def set_roles_handler (resources : List String) (tenant : String)
    (requested current : List RoleId) : SetRolesResult :=
  if SUPERUSER ∈ resources then
    SetRolesResult.ok (set_roles_service current requested tenant true)
  else if tenant = "*" then SetRolesResult.forbidden
  else SetRolesResult.ok (set_roles_service current requested tenant false)

/-- Modelled from the spec: the `@access_control(ResourceId.ROLE_ASSIGN)`
decorator (outside the analysed sources) admits the request only when the
caller holds `ROLE_ASSIGN` in the target tenant or is superuser, responding
403 otherwise; `resources` is the caller's resource set for the tenant that
the decorator passes to the handler. -/
def set_roles_endpoint (resources : List String) (tenant : String)
    (requested current : List RoleId) : SetRolesResult :=
  if ROLE_ASSIGN ∈ resources ∨ SUPERUSER ∈ resources then
    set_roles_handler resources tenant requested current
  else SetRolesResult.forbidden

end Seacatauth

/-- C7: the role replacement gate of `PUT /roles/{tenant}/{cid}`: without
`ROLE_ASSIGN` (or superuser) the request is rejected; a non-superuser
requesting tenant `*` gets 403 FORBIDDEN; a non-superuser holding
`ROLE_ASSIGN` on a named tenant replaces only tenant-scoped roles
(`include_global = false`), requested global roles being silently ignored
— every global role in the new assignment was already assigned; a
superuser replaces global roles as well (`include_global = true`). -/
theorem set_roles_gate (resources : List String) (tenant : String)
    (requested current : List Seacatauth.RoleId) :
    (Seacatauth.ROLE_ASSIGN ∉ resources → Seacatauth.SUPERUSER ∉ resources →
      Seacatauth.set_roles_endpoint resources tenant requested current
        = Seacatauth.SetRolesResult.forbidden) ∧
    (tenant = "*" → Seacatauth.SUPERUSER ∉ resources →
      Seacatauth.set_roles_endpoint resources tenant requested current
        = Seacatauth.SetRolesResult.forbidden) ∧
    (Seacatauth.SUPERUSER ∉ resources → Seacatauth.ROLE_ASSIGN ∈ resources →
      tenant ≠ "*" →
      Seacatauth.set_roles_endpoint resources tenant requested current
          = Seacatauth.SetRolesResult.ok
              (Seacatauth.set_roles_service current requested tenant false) ∧
        ∀ r ∈ Seacatauth.set_roles_service current requested tenant false,
          r.tenant = "*" → r ∈ current) ∧
    (Seacatauth.SUPERUSER ∈ resources →
      Seacatauth.set_roles_endpoint resources tenant requested current
        = Seacatauth.SetRolesResult.ok
            (Seacatauth.set_roles_service current requested tenant true)) := by
  refine ⟨?_, ?_, ?_, ?_⟩
  · intro hra hsu
    unfold Seacatauth.set_roles_endpoint
    rw [if_neg (fun h => h.elim hra hsu)]
  · intro ht hsu
    unfold Seacatauth.set_roles_endpoint Seacatauth.set_roles_handler
    by_cases hra : Seacatauth.ROLE_ASSIGN ∈ resources
    · rw [if_pos (Or.inl hra), if_neg hsu, if_pos ht]
    · rw [if_neg (fun h => h.elim hra hsu)]
  · intro hsu hra hne
    constructor
    · unfold Seacatauth.set_roles_endpoint Seacatauth.set_roles_handler
      rw [if_pos (Or.inl hra), if_neg hsu, if_neg hne]
    · intro r hr hglob
      unfold Seacatauth.set_roles_service at hr
      rcases List.mem_append.mp hr with hmem | hmem
      · exact (List.mem_filter.mp hmem).1
      · exfalso
        have h2 := (List.mem_filter.mp hmem).2
        unfold Seacatauth.roleInScope at h2
        rw [hglob] at h2
        simp at h2
        exact hne h2.symm
  · intro hsu
    unfold Seacatauth.set_roles_endpoint Seacatauth.set_roles_handler
    rw [if_pos (Or.inr hsu), if_pos hsu]

/-- C7 (witness): the gate theorem applied at spec scenario 6: a
non-superuser with `ROLE_ASSIGN` in `tenant-a` requesting
`["tenant-a/editor", "*/superuser"]` gets only `tenant-a/editor`
assigned. -/
theorem set_roles_gate_witness :
    Seacatauth.set_roles_endpoint ["seacat:role:assign"] "tenant-a"
        [⟨"tenant-a", "editor"⟩, ⟨"*", "superuser"⟩] []
      = Seacatauth.SetRolesResult.ok [⟨"tenant-a", "editor"⟩] := by
  have h := ((set_roles_gate ["seacat:role:assign"] "tenant-a"
      [⟨"tenant-a", "editor"⟩, ⟨"*", "superuser"⟩] []).2.2.1
    (by decide) (by decide) (by decide)).1
  rw [h]
  rfl

namespace Seacatauth

/-! ## Private authorization middleware (middleware.py lines 36-108) -/

/-- Python `str.startswith` on strings. -/
def strHasPrefix (p s : String) : Bool := List.isPrefixOf p.data s.data

/-- The session fields the private middleware reads: the authorization map
`Session.Authorization.Authz` (tenant → resources), absent for sessions
without authorization. -/
structure MwSession where
  authz : Option (List (String × List String))
  deriving Repr, DecidableEq

/-- The middleware either passes the request to the handler or responds
HTTP 401 Unauthorized. -/
inductive MwDecision where
  | handler : MwDecision
  | unauthorized : MwDecision
  deriving Repr, DecidableEq

/-- middleware.py lines 84-88: `set(resource for resources in
Authz.values() for resource in resources)` — the union of resources across
all tenants of the authorization map (as a list; only membership is
used). -/
def sessionResources (authz : List (String × List String)) : List String :=
  (authz.map Prod.snd).flatten

/-- middleware.py lines 79-94: a resolved session passes when its `Authz`
map is present and either the configured resource check is `DISABLED` or
the resource union contains `authz:superuser` or the configured
`authorization_resource`. -/
def sessionAuthorized (authorization_resource : String) (session : Option MwSession) : Bool :=
  match session with
  | some s =>
    match s.authz with
    | some authz =>
      if authorization_resource = "DISABLED" then true
      else if "authz:superuser" ∈ sessionResources authz then true
      else if authorization_resource ∈ sessionResources authz then true
      else false
    | none => false
  | none => false

/-- `private_auth_middleware` (middleware.py lines 36-108) as a decision
function: POST requests to `/nginx/...` bypass; when `require_authentication`
is off everything passes; an authorized session passes; otherwise GET
requests to the ASAB diagnostics subtree may pass with the pre-shared
bearer (or freely when none is configured); everything else is 401.
Session resolution from the bearer token (lines 52-62) happens in the OIDC
service and is abstracted as the `session` argument. -/
def private_auth_middleware (require_authentication : Bool)
    (authorization_resource : String) (asab_api_required_bearer_token : Option String)
    (path method : String) (session : Option MwSession)
    (authorization_header : Option String) : MwDecision :=
  if strHasPrefix "/nginx/" path ∧ method = "POST" then MwDecision.handler
  else if require_authentication = false then MwDecision.handler
  else if sessionAuthorized authorization_resource session then MwDecision.handler
  else if (strHasPrefix "/asab/v1" path ∨ path = "/doc" ∨ path = "/oauth2-redirect.html")
      ∧ method = "GET" then
    match asab_api_required_bearer_token with
    | some b =>
      if b ≠ "" then
        if authorization_header = some ("Bearer " ++ b) then MwDecision.handler
        else MwDecision.unauthorized
      else MwDecision.handler
    | none => MwDecision.handler
  else MwDecision.unauthorized

theorem sessionAuthorized_eq_true_iff (authorization_resource : String)
    (session : Option MwSession) (h : authorization_resource ≠ "DISABLED") :
    sessionAuthorized authorization_resource session = true ↔
      ∃ s authz, session = some s ∧ s.authz = some authz ∧
        ("authz:superuser" ∈ sessionResources authz ∨
          authorization_resource ∈ sessionResources authz) := by
  cases session with
  | none => simp [sessionAuthorized]
  | some s =>
    cases hA : s.authz with
    | none => simp [sessionAuthorized, hA]
    | some authz =>
      unfold sessionAuthorized
      dsimp only
      rw [hA]
      dsimp only
      rw [if_neg h]
      by_cases hsu : "authz:superuser" ∈ sessionResources authz
      · rw [if_pos hsu]
        constructor
        · intro _
          exact ⟨s, authz, rfl, hA, Or.inl hsu⟩
        · intro _
          rfl
      · rw [if_neg hsu]
        by_cases har : authorization_resource ∈ sessionResources authz
        · rw [if_pos har]
          constructor
          · intro _
            exact ⟨s, authz, rfl, hA, Or.inr har⟩
          · intro _
            rfl
        · rw [if_neg har]
          constructor
          · intro hcon
            cases hcon
          · rintro ⟨s2, authz2, hs2, hA2, hres⟩
            injection hs2 with hs2
            subst hs2
            rw [hA] at hA2
            injection hA2 with hA2
            subst hA2
            rcases hres with hres | hres
            · exact absurd hres hsu
            · exact absurd hres har

end Seacatauth

/-- C8: for every request that is not a POST to a `/nginx/` path and not an
ASAB diagnostics request, when `require_authentication` is true and
`authorization_resource` is not `DISABLED`, the private middleware passes
the request to the handler if and only if a session was resolved and the
union of resources across all tenants of its authorization map contains
`authz:superuser` or the configured authorization resource; otherwise it
responds 401 Unauthorized. -/
theorem private_auth_middleware_spec (authorization_resource : String)
    (asab_api_required_bearer_token : Option String) (path method : String)
    (session : Option Seacatauth.MwSession) (authorization_header : Option String)
    (hnginx : ¬ (Seacatauth.strHasPrefix "/nginx/" path = true ∧ method = "POST"))
    (hdiag : ¬ ((Seacatauth.strHasPrefix "/asab/v1" path = true ∨ path = "/doc" ∨
      path = "/oauth2-redirect.html") ∧ method = "GET"))
    (hdisabled : authorization_resource ≠ "DISABLED") :
    (Seacatauth.private_auth_middleware true authorization_resource
        asab_api_required_bearer_token path method session authorization_header
        = Seacatauth.MwDecision.handler ↔
      ∃ s authz, session = some s ∧ s.authz = some authz ∧
        ("authz:superuser" ∈ Seacatauth.sessionResources authz ∨
          authorization_resource ∈ Seacatauth.sessionResources authz)) ∧
    (Seacatauth.private_auth_middleware true authorization_resource
        asab_api_required_bearer_token path method session authorization_header
        ≠ Seacatauth.MwDecision.handler →
      Seacatauth.private_auth_middleware true authorization_resource
        asab_api_required_bearer_token path method session authorization_header
        = Seacatauth.MwDecision.unauthorized) := by
  have hiff : Seacatauth.private_auth_middleware true authorization_resource
      asab_api_required_bearer_token path method session authorization_header
      = Seacatauth.MwDecision.handler ↔
      ∃ s authz, session = some s ∧ s.authz = some authz ∧
        ("authz:superuser" ∈ Seacatauth.sessionResources authz ∨
          authorization_resource ∈ Seacatauth.sessionResources authz) := by
    have hsa := Seacatauth.sessionAuthorized_eq_true_iff authorization_resource session
      hdisabled
    unfold Seacatauth.private_auth_middleware
    rw [if_neg hnginx, if_neg (by decide : ¬ ((true : Bool) = false))]
    by_cases hs : Seacatauth.sessionAuthorized authorization_resource session = true
    · rw [if_pos hs]
      constructor
      · intro _
        exact hsa.mp hs
      · intro _
        rfl
    · rw [if_neg hs, if_neg hdiag]
      constructor
      · intro hcon
        cases hcon
      · intro hex
        exact absurd (hsa.mpr hex) hs
  refine ⟨hiff, ?_⟩
  intro hne
  cases hd : Seacatauth.private_auth_middleware true authorization_resource
      asab_api_required_bearer_token path method session authorization_header
  · exact absurd hd hne
  · rfl

/-- C8 (witness): the middleware characterisation applied to a concrete PUT
request with a session holding the configured authorization resource. -/
theorem private_auth_middleware_spec_witness :
    Seacatauth.private_auth_middleware true "seacat:access" none
        "/roles/default/c1" "PUT"
        (some ⟨some [("default", ["seacat:access"])]⟩) none
      = Seacatauth.MwDecision.handler :=
  (private_auth_middleware_spec "seacat:access" none "/roles/default/c1" "PUT"
      (some ⟨some [("default", ["seacat:access"])]⟩) none
      (by decide) (by decide) (by decide)).1.mpr
    ⟨⟨some [("default", ["seacat:access"])]⟩, [("default", ["seacat:access"])],
      rfl, rfl, Or.inr (by decide)⟩
